import Mathlib

/-!
Shallow embedding of the review / aggregate-stats / like-ledger core of the
CinemaDetail page (functions saveMyReview, deleteMyReview, toggleLike).
Numbers stored in the document store are embedded as exact rationals,
integer counters as integers, and server timestamps as naturals supplied
by the caller.  A document that may be absent is an Option; a field that a
schema-less document may lack is an Option field, read back with the same
defaulting the source applies (Number(x ?? 0), x !== undefined checks).
The transactional read-modify-write body of each operation is embedded as
one total function from state to state, which models the atomicity of the
transaction: no interleaving point exists inside it.
-/

namespace PB

/-- The review form the page keeps in local state: four sub-scores and a
comment (source type ReviewForm). -/
structure ReviewForm where
  screen : ℚ
  picture : ℚ
  sound : ℚ
  seat : ℚ
  comment : String
deriving DecidableEq

/-- A stored review document.  Every field is optional because the store is
schema-less: toggleLike can create a review document holding only likeCount,
and legacy documents may lack overall or sub-score fields. -/
structure ReviewDoc where
  userId : Option String
  displayName : Option String
  screen : Option ℚ
  picture : Option ℚ
  sound : Option ℚ
  seat : Option ℚ
  overall : Option ℚ
  comment : Option String
  likeCount : Option ℤ
  createdAt : Option ℕ
  updatedAt : Option ℕ
deriving DecidableEq

/-- The aggregate stats document stored at tagReviews/tag/stats/summary. -/
structure StatsDoc where
  count : Option ℤ
  sumOverall : Option ℚ
  avgOverall : Option ℚ
  updatedAt : Option ℕ
deriving DecidableEq

/-- The state of one (cinemaId, selectedTag) key: the reviews collection
(document id is the author uid), the like records (existence per
(reviewId, likerId)), and the optional stats summary document. -/
structure TagState where
  reviews : List (String × ReviewDoc)
  likes : String → String → Bool
  stats : Option StatsDoc

/-- Point read of a review document by its id. -/
def lookupDoc (l : List (String × ReviewDoc)) (k : String) : Option ReviewDoc :=
  (l.find? (fun p => p.1 == k)).map Prod.snd

/-- Removal of the document with id k (tx.delete). -/
def eraseDoc (l : List (String × ReviewDoc)) (k : String) : List (String × ReviewDoc) :=
  l.filter (fun p => !(p.1 == k))

/-- Point write of document d at id k: the collection afterwards maps k to d
and every other id to its previous document. -/
def writeDoc (l : List (String × ReviewDoc)) (k : String) (d : ReviewDoc) :
    List (String × ReviewDoc) :=
  (k, d) :: eraseDoc l k

/-- Field-wise merge of a write w into an existing document o, the semantics
of set(ref, w, merge true) on an existing document: a field present in w
wins, a field absent in w keeps its stored value. -/
def mergeDoc (o w : ReviewDoc) : ReviewDoc where
  userId := w.userId <|> o.userId
  displayName := w.displayName <|> o.displayName
  screen := w.screen <|> o.screen
  picture := w.picture <|> o.picture
  sound := w.sound <|> o.sound
  seat := w.seat <|> o.seat
  overall := w.overall <|> o.overall
  comment := w.comment <|> o.comment
  likeCount := w.likeCount <|> o.likeCount
  createdAt := w.createdAt <|> o.createdAt
  updatedAt := w.updatedAt <|> o.updatedAt

/-- set(ref, w, merge true): merges into the old document when it exists,
creates the document from exactly the written fields when it does not. -/
def setMergeDoc (old : Option ReviewDoc) (w : ReviewDoc) : ReviewDoc :=
  match old with
  | none => w
  | some o => mergeDoc o w

/-- The overall value the source reads back from a stored review document
(part_000 lines 240-247 and 322-329): the stored overall field when
present, otherwise the mean of the four sub-scores with each missing
sub-score defaulted to 0. -/
def docOverall (d : ReviewDoc) : ℚ :=
  match d.overall with
  | some v => v
  | none => (d.screen.getD 0 + d.picture.getD 0 + d.sound.getD 0 + d.seat.getD 0) / 4

/-- The count the source reads from the stats snapshot: 0 when the stats
document is absent, Number(stats.count ?? 0) otherwise. -/
def statsCount (s : Option StatsDoc) : ℤ :=
  match s with
  | some st => st.count.getD 0
  | none => 0

/-- The sumOverall the source reads from the stats snapshot, defaulting as
statsCount does. -/
def statsSum (s : Option StatsDoc) : ℚ :=
  match s with
  | some st => st.sumOverall.getD 0
  | none => 0

/-- The stored avgOverall, read as 0 when the document or field is absent. -/
def statsAvg (s : Option StatsDoc) : ℚ :=
  match s with
  | some st => st.avgOverall.getD 0
  | none => 0

/-- The likeCount the source reads for a review id (part_000 lines 373-375):
Number(data.likeCount ?? 0) when the document exists, 0 otherwise. -/
def readLikeCount (s : TagState) (reviewId : String) : ℤ :=
  match lookupDoc s.reviews reviewId with
  | some d => d.likeCount.getD 0
  | none => 0

/-- The transaction body of saveMyReview (part_000 lines 230-296), with the
surrounding closure values (user uid, user display name, form, server
timestamp) passed explicitly. -/
def saveMyReviewTx (s : TagState) (uid displayName : String) (form : ReviewForm)
    (now : ℕ) : TagState :=
  let newOverall : ℚ := (form.screen + form.picture + form.sound + form.seat) / 4
  let reviewSnap := lookupDoc s.reviews uid
  let statsSnap := s.stats
  let oldOverall : Option ℚ := reviewSnap.map docOverall
  let existingLikeCount : ℤ :=
    match reviewSnap with
    | some prev => prev.likeCount.getD 0
    | none => 0
  let baseReview : ReviewDoc :=
    { userId := some uid
      displayName := some displayName
      screen := some form.screen
      picture := some form.picture
      sound := some form.sound
      seat := some form.seat
      overall := some newOverall
      comment := some form.comment
      updatedAt := some now
      likeCount := some existingLikeCount
      createdAt := none }
  let written : ReviewDoc :=
    match reviewSnap with
    | none => setMergeDoc reviewSnap { baseReview with likeCount := some 0, createdAt := some now }
    | some _ => setMergeDoc reviewSnap baseReview
  let count0 := statsCount statsSnap
  let sum0 := statsSum statsSnap
  let count : ℤ :=
    match oldOverall with
    | none => count0 + 1
    | some _ => count0
  let sumOverall : ℚ :=
    match oldOverall with
    | none => sum0 + newOverall
    | some old => sum0 + (newOverall - old)
  let avgOverall : ℚ := if count = 0 then 0 else sumOverall / (count : ℚ)
  { reviews := writeDoc s.reviews uid written
    likes := s.likes
    stats := some { count := some count, sumOverall := some sumOverall,
                    avgOverall := some avgOverall, updatedAt := some now } }

/-- The transaction body of deleteMyReview (part_000 lines 317-346).  When
the review document does not exist the body returns before reading or
writing anything. -/
def deleteMyReviewTx (s : TagState) (uid : String) (now : ℕ) : TagState :=
  match lookupDoc s.reviews uid with
  | none => s
  | some prev =>
    let oldOverall := docOverall prev
    let count0 := statsCount s.stats
    let sum0 := statsSum s.stats
    let count : ℤ := max 0 (count0 - 1)
    let sum1 : ℚ := sum0 - oldOverall
    let sumOverall : ℚ := if count = 0 then 0 else sum1
    let avgOverall : ℚ := if count = 0 then 0 else sumOverall / (count : ℚ)
    { reviews := eraseDoc s.reviews uid
      likes := s.likes
      stats := some { count := some count, sumOverall := some sumOverall,
                      avgOverall := some avgOverall, updatedAt := some now } }

/-- The write toggleLike issues against the review reference: a document
carrying only the likeCount field, merged into whatever is stored. -/
def likeOnlyWrite (n : ℤ) : ReviewDoc :=
  { userId := none, displayName := none, screen := none, picture := none,
    sound := none, seat := none, overall := none, comment := none,
    likeCount := some n, createdAt := none, updatedAt := none }

/-- The transaction body of toggleLike (part_000 lines 369-386).  The like
record content (a createdAt stamp) is irrelevant to every claim, so the
ledger is embedded as the existence map it is specified to be. -/
def toggleLikeTx (s : TagState) (reviewId likerId : String) : TagState :=
  let reviewSnap := lookupDoc s.reviews reviewId
  let currentLike : ℤ :=
    match reviewSnap with
    | some d => d.likeCount.getD 0
    | none => 0
  if s.likes reviewId likerId then
    let nextLike := max 0 (currentLike - 1)
    { reviews := writeDoc s.reviews reviewId (setMergeDoc reviewSnap (likeOnlyWrite nextLike))
      likes := fun a b => if a = reviewId ∧ b = likerId then false else s.likes a b
      stats := s.stats }
  else
    let nextLike := currentLike + 1
    { reviews := writeDoc s.reviews reviewId (setMergeDoc reviewSnap (likeOnlyWrite nextLike))
      likes := fun a b => if a = reviewId ∧ b = likerId then true else s.likes a b
      stats := s.stats }

/-- One user-level mutation on the key. -/
inductive Op where
  | save (uid displayName : String) (form : ReviewForm) (now : ℕ)
  | del (uid : String) (now : ℕ)
  | toggle (reviewId likerId : String)
deriving DecidableEq

/-- Application of one mutation to the state. -/
def applyOp (s : TagState) : Op → TagState
  | .save uid dn form now => saveMyReviewTx s uid dn form now
  | .del uid now => deleteMyReviewTx s uid now
  | .toggle r l => toggleLikeTx s r l

/-- A finite sequence of mutations applied in order. -/
def runOps (s : TagState) (ops : List Op) : TagState :=
  ops.foldl applyOp s

/-- The initial state: no reviews, no like records, no stats document. -/
def emptyState : TagState :=
  { reviews := [], likes := fun _ _ => false, stats := none }

/-- Review upserts and deletes, the operations claim C1 quantifies over. -/
def Op.isReviewOp : Op → Bool
  | .toggle _ _ => false
  | _ => true

/-- Sum of the overall values of the currently live reviews. -/
def liveSum (l : List (String × ReviewDoc)) : ℚ :=
  (l.map (fun p => docOverall p.2)).sum

/-- Score validity as the spec states it: in [0,5] and on a 0.5 step
(twice the score is an integer).  The source contains no such check; this
definition only serves to state claim C2. -/
def scoreValid (q : ℚ) : Prop := 0 ≤ q ∧ q ≤ 5 ∧ (2 * q).den = 1

/-- The overall value saveMyReview computes from the submitted form
(part_000 line 230). -/
def formOverall (f : ReviewForm) : ℚ := (f.screen + f.picture + f.sound + f.seat) / 4

/-- The stats document both mutations write: the new count and sum together
with avgOverall recomputed as count == 0 ? 0 : sumOverall / count. -/
def mkStats (c : ℤ) (sm : ℚ) (now : ℕ) : StatsDoc :=
  { count := some c, sumOverall := some sm,
    avgOverall := some (if c = 0 then 0 else sm / (c : ℚ)), updatedAt := some now }

/-- The review document the create branch of saveMyReview writes. -/
def createdDoc (uid dn : String) (f : ReviewForm) (now : ℕ) : ReviewDoc :=
  { userId := some uid, displayName := some dn, screen := some f.screen,
    picture := some f.picture, sound := some f.sound, seat := some f.seat,
    overall := some (formOverall f), comment := some f.comment,
    likeCount := some 0, createdAt := some now, updatedAt := some now }

/-- The review document the update branch of saveMyReview leaves stored:
every field of the merge payload wins except createdAt, which the payload
does not carry and therefore keeps its stored value. -/
def updatedDoc (uid dn : String) (f : ReviewForm) (now : ℕ) (prev : ReviewDoc) :
    ReviewDoc :=
  { userId := some uid, displayName := some dn, screen := some f.screen,
    picture := some f.picture, sound := some f.sound, seat := some f.seat,
    overall := some (formOverall f), comment := some f.comment,
    likeCount := some (prev.likeCount.getD 0), createdAt := prev.createdAt,
    updatedAt := some now }

/-- The aggregate-consistency invariant of claim C1: the stored count is the
number of live reviews, the stored sum is the sum of their overall values,
the stored average is sum over count (0 on an empty set), and review ids
are unique. -/
def statsInv (s : TagState) : Prop :=
  statsCount s.stats = (s.reviews.length : ℤ) ∧
  statsSum s.stats = liveSum s.reviews ∧
  statsAvg s.stats =
    (if statsCount s.stats = 0 then 0 else statsSum s.stats / ((statsCount s.stats : ℤ) : ℚ)) ∧
  (s.reviews.map Prod.fst).Nodup

/-- The nonnegativity invariant of claim C9: every stored likeCount and the
stored stats count are at least 0. -/
def countersOk (s : TagState) : Prop :=
  (∀ p ∈ s.reviews, 0 ≤ p.2.likeCount.getD 0) ∧ 0 ≤ statsCount s.stats

/-- Concrete forms used by witnesses: spec Scenario A scores. -/
def formA : ReviewForm := { screen := 5, picture := 5, sound := 5, seat := 5, comment := "" }

def formB : ReviewForm := { screen := 0, picture := 0, sound := 0, seat := 0, comment := "" }

def formC : ReviewForm := { screen := 4, picture := 4, sound := 4, seat := 4, comment := "" }

/-- A form with a sub-score outside [0,5]. -/
def badForm : ReviewForm := { screen := 7, picture := 1, sound := 1, seat := 1, comment := "" }

/-- Spec Scenario A as an operation sequence. -/
def scenarioOps : List Op :=
  [ .save "A" "A" formA 1, .save "B" "B" formB 2, .save "A" "A" formC 3, .del "B" 4 ]

/-- A stored review document whose likeCount is 0. -/
def zeroLikeDoc : ReviewDoc :=
  { userId := some "r", displayName := some "R", screen := some 4, picture := some 4,
    sound := some 4, seat := some 4, overall := some 4, comment := some "",
    likeCount := some 0, createdAt := some 0, updatedAt := some 0 }

/-- A state in which the like record for (r, v) exists while the stored
likeCount of review r is 0; reachable, because deleting a review does not
delete its like subcollection and re-creating it resets likeCount to 0. -/
def s8 : TagState :=
  { reviews := [("r", zeroLikeDoc)], likes := fun a b => a == "r" && b == "v",
    stats := none }

/-- A state in which the like record for (r, v) exists but review r does
not: the situation the NotFound-as-no-op sentence calls unliking a review
that does not exist. -/
def s6 : TagState :=
  { reviews := [], likes := fun a b => a == "r" && b == "v", stats := none }

/-- A copy of s8 for the toggleLike witness, so no two claims share a
concrete state definition whose removal could orphan the other. -/
def c5State : TagState :=
  { reviews := [("r", zeroLikeDoc)], likes := fun a b => a == "r" && b == "v",
    stats := none }

/-- A one-review state whose stats document matches it. -/
def oneReviewDoc : ReviewDoc :=
  { userId := some "a", displayName := some "A", screen := some 4, picture := some 4,
    sound := some 4, seat := some 4, overall := some 4, comment := some "",
    likeCount := some 2, createdAt := some 0, updatedAt := some 0 }

def oneReviewState : TagState :=
  { reviews := [("a", oneReviewDoc)], likes := fun _ _ => false,
    stats := some { count := some 1, sumOverall := some 4, avgOverall := some 4,
                    updatedAt := some 0 } }

/-- A legacy review document: no stored overall, some sub-score fields
missing. -/
def legacyDoc : ReviewDoc :=
  { userId := some "a", displayName := some "A", screen := some 4, picture := some 3,
    sound := none, seat := some 1, overall := none, comment := some "",
    likeCount := some 0, createdAt := some 0, updatedAt := some 0 }

def legacyState : TagState :=
  { reviews := [("a", legacyDoc)], likes := fun _ _ => false,
    stats := some { count := some 2, sumOverall := some 6, avgOverall := some 3,
                    updatedAt := some 0 } }

theorem lookupDoc_eq_none_iff (l : List (String × ReviewDoc)) (k : String) :
    lookupDoc l k = none ↔ ∀ p ∈ l, p.1 ≠ k := by
  simp [lookupDoc, List.find?_eq_none]

theorem eraseDoc_of_lookup_none {l : List (String × ReviewDoc)} {k : String}
    (h : lookupDoc l k = none) : eraseDoc l k = l := by
  unfold eraseDoc
  rw [List.filter_eq_self]
  intro p hp
  simpa using (lookupDoc_eq_none_iff l k).mp h p hp

theorem lookupDoc_mem {l : List (String × ReviewDoc)} {k : String} {d : ReviewDoc}
    (h : lookupDoc l k = some d) : (k, d) ∈ l := by
  unfold lookupDoc at h
  obtain ⟨p, hfind, hsnd⟩ := Option.map_eq_some'.mp h
  have hmem := List.mem_of_find?_eq_some hfind
  have hkey : p.1 = k := by simpa using List.find?_some hfind
  have : p = (k, d) := by
    cases p
    simp_all
  simpa [this] using hmem

theorem lookupDoc_writeDoc_self (l : List (String × ReviewDoc)) (k : String)
    (d : ReviewDoc) : lookupDoc (writeDoc l k d) k = some d := by
  simp [lookupDoc, writeDoc, List.find?_cons_of_pos]

theorem keys_eraseDoc_nodup {l : List (String × ReviewDoc)} {k : String}
    (h : (l.map Prod.fst).Nodup) : ((eraseDoc l k).map Prod.fst).Nodup :=
  h.sublist (List.Sublist.map Prod.fst (List.filter_sublist l))

theorem keys_writeDoc_nodup {l : List (String × ReviewDoc)} {k : String}
    {d : ReviewDoc} (h : (l.map Prod.fst).Nodup) :
    ((writeDoc l k d).map Prod.fst).Nodup := by
  refine List.Nodup.cons ?_ (keys_eraseDoc_nodup h)
  intro hmem
  obtain ⟨p, hp, hfst⟩ := List.mem_map.mp hmem
  have := List.of_mem_filter hp
  simp [hfst] at this

theorem eraseDoc_of_lookup_some {l : List (String × ReviewDoc)} {k : String}
    {d : ReviewDoc} (hnd : (l.map Prod.fst).Nodup) (h : lookupDoc l k = some d) :
    (eraseDoc l k).length + 1 = l.length ∧
    liveSum (eraseDoc l k) + docOverall d = liveSum l := by
  induction l with
  | nil => simp [lookupDoc] at h
  | cons p t ih =>
    rw [List.map_cons, List.nodup_cons] at hnd
    by_cases hk : p.1 = k
    · have hd : d = p.2 := by
        simp [lookupDoc, List.find?_cons_of_pos, hk] at h
        exact h.symm
      have ht : lookupDoc t k = none := by
        rw [lookupDoc_eq_none_iff]
        intro q hq hqk
        exact hnd.1 (by rw [hk, ← hqk]; exact List.mem_map_of_mem Prod.fst hq)
      have he : eraseDoc t k = t := eraseDoc_of_lookup_none ht
      have hhead : eraseDoc (p :: t) k = t := by
        simp [eraseDoc, hk, List.filter_cons]
        simpa [eraseDoc] using he
      rw [hhead, hd]
      constructor
      · simp
      · simp [liveSum]
        ring
    · have hstep : lookupDoc (p :: t) k = lookupDoc t k := by
        simp [lookupDoc, List.find?_cons_of_neg, hk]
      rw [hstep] at h
      obtain ⟨ih1, ih2⟩ := ih hnd.2 h
      have hhead : eraseDoc (p :: t) k = p :: eraseDoc t k := by
        simp [eraseDoc, List.filter_cons, hk]
      rw [hhead]
      constructor
      · simpa using ih1
      · simp only [liveSum, List.map_cons, List.sum_cons] at *
        linarith

theorem setMergeDoc_likeOnly_likeCount (old : Option ReviewDoc) (n : ℤ) :
    (setMergeDoc old (likeOnlyWrite n)).likeCount = some n := by
  cases old <;> simp [setMergeDoc, mergeDoc, likeOnlyWrite]

theorem save_eq_create (s : TagState) (uid dn : String) (form : ReviewForm) (now : ℕ)
    (hlook : lookupDoc s.reviews uid = none) :
    saveMyReviewTx s uid dn form now =
      { reviews := writeDoc s.reviews uid (createdDoc uid dn form now)
        likes := s.likes
        stats := some (mkStats (statsCount s.stats + 1)
                         (statsSum s.stats + formOverall form) now) } := by
  simp [saveMyReviewTx, hlook, setMergeDoc, createdDoc, mkStats, formOverall]

theorem save_eq_update (s : TagState) (uid dn : String) (form : ReviewForm) (now : ℕ)
    (prev : ReviewDoc) (hlook : lookupDoc s.reviews uid = some prev) :
    saveMyReviewTx s uid dn form now =
      { reviews := writeDoc s.reviews uid (updatedDoc uid dn form now prev)
        likes := s.likes
        stats := some (mkStats (statsCount s.stats)
                         (statsSum s.stats + (formOverall form - docOverall prev)) now) } := by
  simp [saveMyReviewTx, hlook, setMergeDoc, mergeDoc, updatedDoc, mkStats, formOverall]

theorem delete_eq_noop (s : TagState) (uid : String) (now : ℕ)
    (hlook : lookupDoc s.reviews uid = none) :
    deleteMyReviewTx s uid now = s := by
  simp [deleteMyReviewTx, hlook]

theorem delete_eq_some (s : TagState) (uid : String) (now : ℕ) (prev : ReviewDoc)
    (hlook : lookupDoc s.reviews uid = some prev) :
    deleteMyReviewTx s uid now =
      { reviews := eraseDoc s.reviews uid
        likes := s.likes
        stats := some (mkStats (max 0 (statsCount s.stats - 1))
          (if max 0 (statsCount s.stats - 1) = 0 then 0
           else statsSum s.stats - docOverall prev) now) } := by
  simp [deleteMyReviewTx, hlook, mkStats]

theorem toggle_eq_unlike (s : TagState) (rid lid : String) (h : s.likes rid lid = true) :
    toggleLikeTx s rid lid =
      { reviews := writeDoc s.reviews rid
          (setMergeDoc (lookupDoc s.reviews rid)
            (likeOnlyWrite (max 0 (readLikeCount s rid - 1))))
        likes := fun a b => if a = rid ∧ b = lid then false else s.likes a b
        stats := s.stats } := by
  simp [toggleLikeTx, h, readLikeCount]

theorem toggle_eq_like (s : TagState) (rid lid : String) (h : s.likes rid lid = false) :
    toggleLikeTx s rid lid =
      { reviews := writeDoc s.reviews rid
          (setMergeDoc (lookupDoc s.reviews rid)
            (likeOnlyWrite (readLikeCount s rid + 1)))
        likes := fun a b => if a = rid ∧ b = lid then true else s.likes a b
        stats := s.stats } := by
  simp [toggleLikeTx, h, readLikeCount]

theorem readLikeCount_toggle (s : TagState) (rid lid : String) :
    readLikeCount (toggleLikeTx s rid lid) rid =
      (if s.likes rid lid = true then max 0 (readLikeCount s rid - 1)
       else readLikeCount s rid + 1) := by
  by_cases h : s.likes rid lid = true
  · rw [toggle_eq_unlike s rid lid h, h]
    simp [readLikeCount, lookupDoc_writeDoc_self, setMergeDoc_likeOnly_likeCount]
  · have hf : s.likes rid lid = false := by simpa using h
    rw [toggle_eq_like s rid lid hf, hf]
    simp [readLikeCount, lookupDoc_writeDoc_self, setMergeDoc_likeOnly_likeCount]

theorem likes_toggle_self (s : TagState) (rid lid : String) :
    (toggleLikeTx s rid lid).likes rid lid = !(s.likes rid lid) := by
  by_cases h : s.likes rid lid = true
  · rw [toggle_eq_unlike s rid lid h, h]
    simp
  · have hf : s.likes rid lid = false := by simpa using h
    rw [toggle_eq_like s rid lid hf, hf]
    simp

theorem statsCount_mkStats (c : ℤ) (sm : ℚ) (now : ℕ) :
    statsCount (some (mkStats c sm now)) = c := rfl

theorem statsSum_mkStats (c : ℤ) (sm : ℚ) (now : ℕ) :
    statsSum (some (mkStats c sm now)) = sm := rfl

theorem statsAvg_mkStats (c : ℤ) (sm : ℚ) (now : ℕ) :
    statsAvg (some (mkStats c sm now)) = (if c = 0 then 0 else sm / (c : ℚ)) := rfl

theorem liveSum_cons (k : String) (d : ReviewDoc) (t : List (String × ReviewDoc)) :
    liveSum ((k, d) :: t) = docOverall d + liveSum t := by
  simp [liveSum]

theorem docOverall_createdDoc (uid dn : String) (f : ReviewForm) (now : ℕ) :
    docOverall (createdDoc uid dn f now) = formOverall f := rfl

theorem docOverall_updatedDoc (uid dn : String) (f : ReviewForm) (now : ℕ)
    (prev : ReviewDoc) : docOverall (updatedDoc uid dn f now prev) = formOverall f := rfl

theorem writeDoc_eq_cons (l : List (String × ReviewDoc)) (k : String) (d : ReviewDoc) :
    writeDoc l k d = (k, d) :: eraseDoc l k := rfl

theorem statsInv_empty : statsInv emptyState := by
  refine ⟨rfl, rfl, ?_, by simp [emptyState]⟩
  simp [emptyState, statsAvg, statsCount, statsSum]

theorem statsInv_save (s : TagState) (uid dn : String) (form : ReviewForm) (now : ℕ)
    (h : statsInv s) : statsInv (saveMyReviewTx s uid dn form now) := by
  obtain ⟨hc, hs, -, hnd⟩ := h
  cases hlook : lookupDoc s.reviews uid with
  | none =>
    rw [save_eq_create s uid dn form now hlook]
    have he : eraseDoc s.reviews uid = s.reviews := eraseDoc_of_lookup_none hlook
    refine ⟨?_, ?_, ?_, keys_writeDoc_nodup hnd⟩
    · rw [statsCount_mkStats, hc, writeDoc_eq_cons, List.length_cons, he]
      push_cast
      ring
    · rw [statsSum_mkStats, hs, writeDoc_eq_cons, liveSum_cons, he, docOverall_createdDoc]
      ring
    · rw [statsAvg_mkStats, statsCount_mkStats, statsSum_mkStats]
  | some prev =>
    rw [save_eq_update s uid dn form now prev hlook]
    obtain ⟨hl, hsum⟩ := eraseDoc_of_lookup_some hnd hlook
    refine ⟨?_, ?_, ?_, keys_writeDoc_nodup hnd⟩
    · rw [statsCount_mkStats, hc, writeDoc_eq_cons, List.length_cons, ← hl]
    · rw [statsSum_mkStats, hs, writeDoc_eq_cons, liveSum_cons, docOverall_updatedDoc]
      linarith
    · rw [statsAvg_mkStats, statsCount_mkStats, statsSum_mkStats]

theorem statsInv_del (s : TagState) (uid : String) (now : ℕ) (h : statsInv s) :
    statsInv (deleteMyReviewTx s uid now) := by
  obtain ⟨hc, hs, ha, hnd⟩ := h
  cases hlook : lookupDoc s.reviews uid with
  | none =>
    rw [delete_eq_noop s uid now hlook]
    exact ⟨hc, hs, ha, hnd⟩
  | some prev =>
    rw [delete_eq_some s uid now prev hlook]
    obtain ⟨hl, hsum⟩ := eraseDoc_of_lookup_some hnd hlook
    have hcount : max 0 (statsCount s.stats - 1) = ((eraseDoc s.reviews uid).length : ℤ) := by
      rw [hc, ← hl]
      push_cast
      omega
    refine ⟨?_, ?_, ?_, keys_eraseDoc_nodup hnd⟩
    · rw [statsCount_mkStats]
      exact hcount
    · rw [statsSum_mkStats]
      by_cases h0 : max 0 (statsCount s.stats - 1) = 0
      · have hlen : (eraseDoc s.reviews uid).length = 0 := by
          rw [hcount] at h0
          exact_mod_cast h0
        have hnil : eraseDoc s.reviews uid = [] := List.length_eq_zero.mp hlen
        simp [h0, hnil, liveSum]
      · rw [if_neg h0, hs]
        linarith
    · rw [statsAvg_mkStats, statsCount_mkStats, statsSum_mkStats]

theorem statsInv_runOps (ops : List Op) (s : TagState) (h : statsInv s)
    (hall : ∀ o ∈ ops, o.isReviewOp = true) : statsInv (runOps s ops) := by
  induction ops generalizing s with
  | nil => exact h
  | cons o t ih =>
    have hstep : statsInv (applyOp s o) := by
      cases o with
      | save uid dn form now => exact statsInv_save s uid dn form now h
      | del uid now => exact statsInv_del s uid now h
      | toggle r l =>
        have := hall _ (List.mem_cons_self _ _)
        simp [Op.isReviewOp] at this
    exact ih (applyOp s o) hstep (fun o ho => hall o (List.mem_cons_of_mem _ ho))

theorem countersOk_empty : countersOk emptyState := by
  refine ⟨?_, ?_⟩ <;> simp [emptyState, statsCount]

theorem countersOk_save (s : TagState) (uid dn : String) (form : ReviewForm) (now : ℕ)
    (h : countersOk s) : countersOk (saveMyReviewTx s uid dn form now) := by
  obtain ⟨hrev, hcnt⟩ := h
  cases hlook : lookupDoc s.reviews uid with
  | none =>
    rw [save_eq_create s uid dn form now hlook]
    refine ⟨?_, ?_⟩
    · intro p hp
      simp only [writeDoc, List.mem_cons] at hp
      rcases hp with hph | hpt
      · simp [hph, createdDoc]
      · exact hrev p (List.mem_of_mem_filter hpt)
    · rw [statsCount_mkStats]
      omega
  | some prev =>
    rw [save_eq_update s uid dn form now prev hlook]
    refine ⟨?_, ?_⟩
    · intro p hp
      simp only [writeDoc, List.mem_cons] at hp
      rcases hp with hph | hpt
      · have hprev : 0 ≤ prev.likeCount.getD 0 := hrev (uid, prev) (lookupDoc_mem hlook)
        simp [hph, updatedDoc]
        exact hprev
      · exact hrev p (List.mem_of_mem_filter hpt)
    · rw [statsCount_mkStats]
      exact hcnt

theorem countersOk_del (s : TagState) (uid : String) (now : ℕ) (h : countersOk s) :
    countersOk (deleteMyReviewTx s uid now) := by
  obtain ⟨hrev, hcnt⟩ := h
  cases hlook : lookupDoc s.reviews uid with
  | none =>
    rw [delete_eq_noop s uid now hlook]
    exact ⟨hrev, hcnt⟩
  | some prev =>
    rw [delete_eq_some s uid now prev hlook]
    refine ⟨?_, ?_⟩
    · intro p hp
      exact hrev p (List.mem_of_mem_filter hp)
    · rw [statsCount_mkStats]
      exact le_max_left 0 _

theorem countersOk_toggle (s : TagState) (rid lid : String) (h : countersOk s) :
    countersOk (toggleLikeTx s rid lid) := by
  obtain ⟨hrev, hcnt⟩ := h
  have hcur : 0 ≤ readLikeCount s rid := by
    unfold readLikeCount
    cases hl : lookupDoc s.reviews rid with
    | none => simp
    | some d => simpa using hrev (rid, d) (lookupDoc_mem hl)
  by_cases hlike : s.likes rid lid = true
  · rw [toggle_eq_unlike s rid lid hlike]
    refine ⟨?_, hcnt⟩
    intro p hp
    simp only [writeDoc, List.mem_cons] at hp
    rcases hp with hph | hpt
    · rw [hph]
      simp [setMergeDoc_likeOnly_likeCount]
    · exact hrev p (List.mem_of_mem_filter hpt)
  · have hf : s.likes rid lid = false := by simpa using hlike
    rw [toggle_eq_like s rid lid hf]
    refine ⟨?_, hcnt⟩
    intro p hp
    simp only [writeDoc, List.mem_cons] at hp
    rcases hp with hph | hpt
    · rw [hph]
      simp [setMergeDoc_likeOnly_likeCount]
      omega
    · exact hrev p (List.mem_of_mem_filter hpt)

theorem countersOk_runOps (ops : List Op) (s : TagState) (h : countersOk s) :
    countersOk (runOps s ops) := by
  induction ops generalizing s with
  | nil => exact h
  | cons o t ih =>
    have hstep : countersOk (applyOp s o) := by
      cases o with
      | save uid dn form now => exact countersOk_save s uid dn form now h
      | del uid now => exact countersOk_del s uid now h
      | toggle r l => exact countersOk_toggle s r l h
    exact ih (applyOp s o) hstep

/-- Claim C1: for every finite sequence of review upsert and delete
operations under one (subjectId, categoryTag), starting from an empty
review set and no stats document, after each operation AggregateStats.count
equals the number of currently-live reviews for that key,
AggregateStats.sumOverall equals the sum of their overall values exactly,
hence within the 1e-9 floating-point tolerance the spec allows, and
avgOverall equals sumOverall / count, or 0 when count = 0. -/
theorem aggregate_stats_consistency (ops : List Op)
    (hall : ∀ o ∈ ops, o.isReviewOp = true) (n : ℕ) :
    statsCount (runOps emptyState (ops.take n)).stats
        = ((runOps emptyState (ops.take n)).reviews.length : ℤ) ∧
    statsSum (runOps emptyState (ops.take n)).stats
        = liveSum (runOps emptyState (ops.take n)).reviews ∧
    |statsSum (runOps emptyState (ops.take n)).stats
        - liveSum (runOps emptyState (ops.take n)).reviews| ≤ 1 / 1000000000 ∧
    statsAvg (runOps emptyState (ops.take n)).stats
        = (if statsCount (runOps emptyState (ops.take n)).stats = 0 then 0
           else statsSum (runOps emptyState (ops.take n)).stats
                / ((statsCount (runOps emptyState (ops.take n)).stats : ℤ) : ℚ)) := by
  obtain ⟨h1, h2, h3, -⟩ := statsInv_runOps (ops.take n) emptyState statsInv_empty
    (fun o ho => hall o (List.take_subset n ops ho))
  refine ⟨h1, h2, ?_, h3⟩
  rw [h2, sub_self, abs_zero]
  norm_num

/-- Witness for C1: spec Scenario A, four review operations. -/
theorem aggregate_stats_consistency_witness :
    statsCount (runOps emptyState (scenarioOps.take 4)).stats
        = ((runOps emptyState (scenarioOps.take 4)).reviews.length : ℤ) :=
  (aggregate_stats_consistency scenarioOps (by decide) 4).1

/-- Claim C2 counterexample: saveMyReview contains no sub-score
validation.  With screen = 7, outside [0,5], the transaction still runs:
the review document is created and the stats document written, so the
claim that the operation is rejected with no state change is false. -/
theorem invalid_score_not_rejected :
    ¬ scoreValid badForm.screen ∧
    lookupDoc (saveMyReviewTx emptyState "u" "U" badForm 0).reviews "u" ≠ none ∧
    (saveMyReviewTx emptyState "u" "U" badForm 0).stats ≠ emptyState.stats := by
  refine ⟨?_, ?_, ?_⟩
  · intro h
    have h2 := h.2.1
    norm_num [badForm] at h2
  · rw [save_eq_create emptyState "u" "U" badForm 0 rfl, lookupDoc_writeDoc_self]
    simp
  · rw [save_eq_create emptyState "u" "U" badForm 0 rfl]
    simp [emptyState]

/-- Claim C2 amended: saveMyReview performs no sub-score validation at
all; for every form, whether or not its scores are in [0,5] on 0.5 steps,
the transaction opens and writes: afterwards the review document exists
and stores overall computed from the submitted scores, and the stats
document exists.  The UI slider is the only range restriction. -/
theorem save_never_rejects (s : TagState) (uid dn : String) (form : ReviewForm)
    (now : ℕ) :
    ∃ d, lookupDoc (saveMyReviewTx s uid dn form now).reviews uid = some d ∧
      d.overall = some ((form.screen + form.picture + form.sound + form.seat) / 4) ∧
      (saveMyReviewTx s uid dn form now).stats ≠ none := by
  cases hlook : lookupDoc s.reviews uid with
  | none =>
    rw [save_eq_create s uid dn form now hlook]
    exact ⟨createdDoc uid dn form now, lookupDoc_writeDoc_self _ _ _, rfl, by simp⟩
  | some prev =>
    rw [save_eq_update s uid dn form now prev hlook]
    exact ⟨updatedDoc uid dn form now prev, lookupDoc_writeDoc_self _ _ _, rfl, by simp⟩

/-- Claim C3: on upsert, if the review did not previously exist the stats
delta is count + 1 and sumOverall + newOverall; if it did exist, count is
unchanged and sumOverall gains newOverall - oldOverall; a missing stats
document reads as count 0 and sumOverall 0, and a missing prior review
selects the create branch. -/
theorem upsert_stats_delta (s : TagState) (uid dn : String) (form : ReviewForm)
    (now : ℕ) :
    (s.stats = none → statsCount s.stats = 0 ∧ statsSum s.stats = 0) ∧
    (lookupDoc s.reviews uid = none →
      statsCount (saveMyReviewTx s uid dn form now).stats = statsCount s.stats + 1 ∧
      statsSum (saveMyReviewTx s uid dn form now).stats
        = statsSum s.stats + (form.screen + form.picture + form.sound + form.seat) / 4) ∧
    (∀ prev, lookupDoc s.reviews uid = some prev →
      statsCount (saveMyReviewTx s uid dn form now).stats = statsCount s.stats ∧
      statsSum (saveMyReviewTx s uid dn form now).stats
        = statsSum s.stats
          + ((form.screen + form.picture + form.sound + form.seat) / 4 - docOverall prev)) := by
  refine ⟨?_, ?_, ?_⟩
  · intro h
    rw [h]
    exact ⟨rfl, rfl⟩
  · intro hlook
    rw [save_eq_create s uid dn form now hlook]
    exact ⟨rfl, rfl⟩
  · intro prev hlook
    rw [save_eq_update s uid dn form now prev hlook]
    exact ⟨rfl, rfl⟩

/-- Witness for C3: the create branch applied at the empty state. -/
theorem upsert_stats_delta_witness :
    statsCount (saveMyReviewTx emptyState "a" "A" formA 1).stats
        = statsCount emptyState.stats + 1 ∧
    statsSum (saveMyReviewTx emptyState "a" "A" formA 1).stats
        = statsSum emptyState.stats
          + (formA.screen + formA.picture + formA.sound + formA.seat) / 4 :=
  (upsert_stats_delta emptyState "a" "A" formA 1).2.1 rfl

/-- Claim C4: deleting an existing review updates the stats document to
count = max(0, count - 1) and sumOverall - oldOverall, forces sumOverall
to exactly 0 when the resulting count is 0, and recomputes avgOverall as
count == 0 ? 0 : sumOverall / count. -/
theorem delete_stats_update (s : TagState) (uid : String) (now : ℕ)
    (prev : ReviewDoc) (h : lookupDoc s.reviews uid = some prev) :
    statsCount (deleteMyReviewTx s uid now).stats = max 0 (statsCount s.stats - 1) ∧
    statsSum (deleteMyReviewTx s uid now).stats
      = (if max 0 (statsCount s.stats - 1) = 0 then 0
         else statsSum s.stats - docOverall prev) ∧
    statsAvg (deleteMyReviewTx s uid now).stats
      = (if statsCount (deleteMyReviewTx s uid now).stats = 0 then 0
         else statsSum (deleteMyReviewTx s uid now).stats
              / ((statsCount (deleteMyReviewTx s uid now).stats : ℤ) : ℚ)) := by
  rw [delete_eq_some s uid now prev h]
  exact ⟨rfl, rfl, rfl⟩

/-- Witness for C4 at a concrete one-review state. -/
theorem delete_stats_update_witness :
    statsCount (deleteMyReviewTx oneReviewState "a" 9).stats
        = max 0 (statsCount oneReviewState.stats - 1) ∧
    statsSum (deleteMyReviewTx oneReviewState "a" 9).stats
        = (if max 0 (statsCount oneReviewState.stats - 1) = 0 then 0
           else statsSum oneReviewState.stats - docOverall oneReviewDoc) :=
  ⟨(delete_stats_update oneReviewState "a" 9 oneReviewDoc (by decide)).1,
   (delete_stats_update oneReviewState "a" 9 oneReviewDoc (by decide)).2.1⟩

/-- Claim C5: toggleLike deletes the like record and sets likeCount to
max(0, likeCount - 1) when the record exists, and creates the record and
sets likeCount to likeCount + 1 when it does not; both changes are fields
of the one atomic state transition toggleLikeTx, the embedding of the
single transaction. -/
theorem toggle_like_spec (s : TagState) (rid lid : String) :
    (s.likes rid lid = true →
      (toggleLikeTx s rid lid).likes rid lid = false ∧
      readLikeCount (toggleLikeTx s rid lid) rid = max 0 (readLikeCount s rid - 1)) ∧
    (s.likes rid lid = false →
      (toggleLikeTx s rid lid).likes rid lid = true ∧
      readLikeCount (toggleLikeTx s rid lid) rid = readLikeCount s rid + 1) := by
  constructor
  · intro h
    constructor
    · rw [likes_toggle_self, h]
      rfl
    · rw [readLikeCount_toggle, if_pos h]
  · intro h
    constructor
    · rw [likes_toggle_self, h]
      rfl
    · rw [readLikeCount_toggle, if_neg (by simp [h])]

/-- Witness for C5: unliking in a state where the like record exists. -/
theorem toggle_like_spec_witness :
    (toggleLikeTx c5State "r" "v").likes "r" "v" = false ∧
    readLikeCount (toggleLikeTx c5State "r" "v") "r"
        = max 0 (readLikeCount c5State "r" - 1) :=
  (toggle_like_spec c5State "r" "v").1 (by decide)

/-- Claim C6 counterexample: in state s6 the like record for (r, v) exists
while review r does not.  The claim says unliking a review that does not
exist succeeds with zero effect, yet the toggle transaction creates the
review document r, holding only likeCount 0. -/
theorem unlike_missing_review_creates_doc :
    lookupDoc s6.reviews "r" = none ∧ s6.likes "r" "v" = true ∧
    lookupDoc (toggleLikeTx s6 "r" "v").reviews "r" = some (likeOnlyWrite 0) := by
  refine ⟨rfl, by decide, by decide⟩

/-- Claim C6 amended: deleting a review that does not exist succeeds with
zero effect, but toggling like on a review whose document does not exist
is not a no-op: the like record is still toggled and a review document
containing only likeCount (0 when the record existed, 1 when it did not)
is created. -/
theorem delete_noop_toggle_creates (s : TagState) (uid rid lid : String) (now : ℕ) :
    (lookupDoc s.reviews uid = none → deleteMyReviewTx s uid now = s) ∧
    (lookupDoc s.reviews rid = none →
      lookupDoc (toggleLikeTx s rid lid).reviews rid
        = some (likeOnlyWrite (if s.likes rid lid = true then 0 else 1))) := by
  constructor
  · exact delete_eq_noop s uid now
  · intro hlook
    have hcnt : readLikeCount s rid = 0 := by
      unfold readLikeCount
      rw [hlook]
    by_cases h : s.likes rid lid = true
    · rw [toggle_eq_unlike s rid lid h, lookupDoc_writeDoc_self, if_pos h, hlook, hcnt]
      decide
    · have hf : s.likes rid lid = false := by simpa using h
      rw [toggle_eq_like s rid lid hf, lookupDoc_writeDoc_self, if_neg h, hlook, hcnt]
      decide

/-- Witness for C6 amended: delete of a missing review is the identity,
and a like toggle on a missing review creates its document. -/
theorem delete_noop_toggle_creates_witness :
    deleteMyReviewTx emptyState "a" 0 = emptyState ∧
    lookupDoc (toggleLikeTx emptyState "r" "v").reviews "r" = some (likeOnlyWrite 1) := by
  refine ⟨(delete_noop_toggle_creates emptyState "a" "r" "v" 0).1 rfl, ?_⟩
  have h := (delete_noop_toggle_creates emptyState "a" "r" "v" 0).2 rfl
  simpa [emptyState] using h

/-- Claim C7: the stored overall equals the arithmetic mean of the four
submitted sub-scores; a create (no prior row) writes likeCount 0 and a
fresh createdAt, an update preserves the stored likeCount read back by the
transaction and keeps createdAt, and both refresh updatedAt. -/
theorem upsert_review_doc (s : TagState) (uid dn : String) (form : ReviewForm)
    (now : ℕ) :
    ∃ d, lookupDoc (saveMyReviewTx s uid dn form now).reviews uid = some d ∧
      d.overall = some ((form.screen + form.picture + form.sound + form.seat) / 4) ∧
      d.updatedAt = some now ∧
      (lookupDoc s.reviews uid = none → d.likeCount = some 0 ∧ d.createdAt = some now) ∧
      (∀ prev, lookupDoc s.reviews uid = some prev →
        d.likeCount = some (prev.likeCount.getD 0) ∧ d.createdAt = prev.createdAt) := by
  cases hlook : lookupDoc s.reviews uid with
  | none =>
    rw [save_eq_create s uid dn form now hlook]
    refine ⟨createdDoc uid dn form now, lookupDoc_writeDoc_self _ _ _, rfl, rfl,
      fun _ => ⟨rfl, rfl⟩, fun prev hprev => ?_⟩
    cases hprev
  | some prev0 =>
    rw [save_eq_update s uid dn form now prev0 hlook]
    refine ⟨updatedDoc uid dn form now prev0, lookupDoc_writeDoc_self _ _ _, rfl, rfl,
      fun hnone => ?_, fun prev hprev => ?_⟩
    · cases hnone
    · cases hprev
      exact ⟨rfl, rfl⟩

/-- Witness for C7 at the empty state. -/
theorem upsert_review_doc_witness :
    ∃ d, lookupDoc (saveMyReviewTx emptyState "a" "A" formA 1).reviews "a" = some d ∧
      d.overall = some ((formA.screen + formA.picture + formA.sound + formA.seat) / 4) ∧
      d.updatedAt = some 1 ∧
      (lookupDoc emptyState.reviews "a" = none →
        d.likeCount = some 0 ∧ d.createdAt = some 1) ∧
      (∀ prev, lookupDoc emptyState.reviews "a" = some prev →
        d.likeCount = some (prev.likeCount.getD 0) ∧ d.createdAt = prev.createdAt) :=
  upsert_review_doc emptyState "a" "A" formA 1

/-- Claim C8 counterexample: in state s8 the like record for (r, v)
already exists while the stored likeCount is 0, a state reachable because
deleting a review leaves its like records behind and re-creating it resets
likeCount to 0.  Toggling twice ends at likeCount 1 with the record
present, so neither the original count nor record absence is restored. -/
theorem toggle_twice_not_involution :
    readLikeCount s8 "r" = 0 ∧ s8.likes "r" "v" = true ∧
    readLikeCount (toggleLikeTx (toggleLikeTx s8 "r" "v") "r" "v") "r" = 1 ∧
    (toggleLikeTx (toggleLikeTx s8 "r" "v") "r" "v").likes "r" "v" = true := by
  decide

/-- Claim C8 amended: when no like record exists for (reviewId, likerId)
beforehand and the likeCount read for the review is nonnegative, toggling
twice returns likeCount to its original value and leaves no like record.
The restriction is forced by the counterexample state. -/
theorem toggle_twice_involution (s : TagState) (rid lid : String)
    (hrec : s.likes rid lid = false) (hnn : 0 ≤ readLikeCount s rid) :
    readLikeCount (toggleLikeTx (toggleLikeTx s rid lid) rid lid) rid
        = readLikeCount s rid ∧
    (toggleLikeTx (toggleLikeTx s rid lid) rid lid).likes rid lid = false := by
  have h1like : (toggleLikeTx s rid lid).likes rid lid = true := by
    rw [likes_toggle_self, hrec]
    rfl
  have h1cnt : readLikeCount (toggleLikeTx s rid lid) rid = readLikeCount s rid + 1 := by
    rw [readLikeCount_toggle, if_neg (by simp [hrec])]
  constructor
  · rw [readLikeCount_toggle, if_pos h1like, h1cnt]
    omega
  · rw [likes_toggle_self, h1like]
    rfl

/-- Witness for C8 amended, at the empty state. -/
theorem toggle_twice_involution_witness :
    readLikeCount (toggleLikeTx (toggleLikeTx emptyState "r" "v") "r" "v") "r"
        = readLikeCount emptyState "r" ∧
    (toggleLikeTx (toggleLikeTx emptyState "r" "v") "r" "v").likes "r" "v" = false :=
  toggle_twice_involution emptyState "r" "v" rfl (by decide)

/-- Claim C9: for every sequence of operations from the empty state, in
any order, including deletes of missing reviews and repeated like toggles,
the likeCount read for every review id and the stats count stay at least
0.  The embedding is per (subjectId, categoryTag) key; every operation
touches a single key, so the statement covers all keys. -/
theorem no_negative_counters (ops : List Op) (rid : String) :
    0 ≤ readLikeCount (runOps emptyState ops) rid ∧
    0 ≤ statsCount (runOps emptyState ops).stats := by
  have h := countersOk_runOps ops emptyState countersOk_empty
  refine ⟨?_, h.2⟩
  unfold readLikeCount
  cases hl : lookupDoc (runOps emptyState ops).reviews rid with
  | none => exact le_refl 0
  | some d => exact h.1 (rid, d) (lookupDoc_mem hl)

/-- Claim C10: for a stored review whose overall field is absent, both the
upsert path and the delete path read the previous overall as the mean of
the stored sub-scores with each missing sub-score defaulted to 0, and
apply the stats delta with that fallback value. -/
theorem legacy_overall_fallback (s : TagState) (uid dn : String) (form : ReviewForm)
    (now : ℕ) (prev : ReviewDoc) (h : lookupDoc s.reviews uid = some prev)
    (hov : prev.overall = none) :
    docOverall prev
      = (prev.screen.getD 0 + prev.picture.getD 0 + prev.sound.getD 0
         + prev.seat.getD 0) / 4 ∧
    statsSum (saveMyReviewTx s uid dn form now).stats
      = statsSum s.stats
        + ((form.screen + form.picture + form.sound + form.seat) / 4
           - (prev.screen.getD 0 + prev.picture.getD 0 + prev.sound.getD 0
              + prev.seat.getD 0) / 4) ∧
    statsSum (deleteMyReviewTx s uid now).stats
      = (if max 0 (statsCount s.stats - 1) = 0 then 0
         else statsSum s.stats
           - (prev.screen.getD 0 + prev.picture.getD 0 + prev.sound.getD 0
              + prev.seat.getD 0) / 4) := by
  have hdo : docOverall prev
      = (prev.screen.getD 0 + prev.picture.getD 0 + prev.sound.getD 0
         + prev.seat.getD 0) / 4 := by
    simp [docOverall, hov]
  refine ⟨hdo, ?_, ?_⟩
  · rw [save_eq_update s uid dn form now prev h, statsSum_mkStats, hdo]
    rfl
  · rw [delete_eq_some s uid now prev h, statsSum_mkStats, hdo]

/-- Witness for C10 at the legacy state: the fallback mean of the stored
sub-scores (4, 3, missing, 1) is 2. -/
theorem legacy_overall_fallback_witness :
    docOverall legacyDoc
      = (legacyDoc.screen.getD 0 + legacyDoc.picture.getD 0 + legacyDoc.sound.getD 0
         + legacyDoc.seat.getD 0) / 4 ∧
    statsSum (deleteMyReviewTx legacyState "a" 9).stats
      = (if max 0 (statsCount legacyState.stats - 1) = 0 then 0
         else statsSum legacyState.stats
           - (legacyDoc.screen.getD 0 + legacyDoc.picture.getD 0 + legacyDoc.sound.getD 0
              + legacyDoc.seat.getD 0) / 4) :=
  ⟨(legacy_overall_fallback legacyState "a" "A" formA 9 legacyDoc (by decide) rfl).1,
   (legacy_overall_fallback legacyState "a" "A" formA 9 legacyDoc (by decide) rfl).2.2⟩

end PB
